import Mathlib

/-!
Verification development for the humble-control-center core
(`asset_db.py`, `download_library.py`, `library_index.py`).

The Python source is shallowly embedded: dictionaries become structures with
`Option` fields (`none` models Python `None` / SQL `NULL`), the SQLite asset
table becomes a list of rows, and every operation is a pure Lean function
translated clause by clause from the source.
-/

namespace HCC

/-- Python truthiness of an optional string: `None` and `""` are falsy. -/
def pyTruthyS (o : Option String) : Bool :=
  match o with
  | some s => s ≠ ""
  | none => false

/-- Python `a or b` on optional strings: keep `a` when truthy, else `b`. -/
def pyOrS (a b : Option String) : Option String :=
  if pyTruthyS a then a else b

/-- SQL `COALESCE(a, b)`. -/
def coalesce {α : Type} (a b : Option α) : Option α :=
  match a with
  | some x => some x
  | none => b

/-- Does the character list start with the given pattern? -/
def charsStartWith : List Char → List Char → Bool
  | [], _ => true
  | _ :: _, [] => false
  | p :: ps, c :: cs => p == c && charsStartWith ps cs

/-- Does the character list contain the pattern as a contiguous run?
Models `re.search` of a literal alternative. -/
def charsHaveSub (pat : List Char) : List Char → Bool
  | [] => charsStartWith pat []
  | c :: cs => charsStartWith pat (c :: cs) || charsHaveSub pat cs

/-- `re.search` of a literal pattern in a string. -/
def strHasSub (hay pat : String) : Bool :=
  charsHaveSub pat.data hay.data

/-- Regex word character, `[A-Za-z0-9_]`. -/
def isWordChar (c : Char) : Bool :=
  c.isAlpha || c.isDigit || c == '_'

/-- Pattern occurrence immediately followed by a whitespace character
(the regex fragment `pat\s`). -/
def charsHaveSubThenWs (pat : List Char) : List Char → Bool
  | [] => false
  | c :: cs =>
      (charsStartWith pat (c :: cs) &&
        (match (c :: cs).drop pat.length with
         | [] => false
         | d :: _ => d.isWhitespace)) ||
      charsHaveSubThenWs pat cs

def strHasSubThenWs (hay pat : String) : Bool :=
  charsHaveSubThenWs pat.data hay.data

/-- Pattern occurrence at a right word boundary (the regex fragment `pat\b`):
followed by end of string or a non-word character. -/
def charsHaveSubBoundary (pat : List Char) : List Char → Bool
  | [] => false
  | c :: cs =>
      (charsStartWith pat (c :: cs) &&
        (match (c :: cs).drop pat.length with
         | [] => true
         | d :: _ => !isWordChar d)) ||
      charsHaveSubBoundary pat cs

def strHasSubBoundary (hay pat : String) : Bool :=
  charsHaveSubBoundary pat.data hay.data

/-- Any of the literal alternatives occurs in the text. -/
def strHasAny (hay : String) (pats : List String) : Bool :=
  pats.any (fun p => strHasSub hay p)

/-! ## Asset classifier (`AssetCategorizer`, library_index.py) -/

/-- `AssetCategorizer.EXT_MAP`. -/
def EXT_MAP : List (String × String) :=
  [("pdf", "ebook"), ("epub", "ebook"), ("mobi", "ebook"), ("azw3", "ebook"),
   ("cbz", "comic"), ("cbr", "comic"),
   ("mp3", "music"), ("flac", "music"), ("aac", "music"), ("ogg", "music"),
   ("wav", "sfx"),
   ("mp4", "tutorial"), ("mkv", "tutorial"), ("avi", "tutorial"), ("mov", "tutorial"),
   ("unitypackage", "unity"), ("fbx", "3d"), ("obj", "3d"), ("blend", "3d"),
   ("uasset", "unreal"), ("uproject", "unreal"),
   ("psd", "art"), ("png", "art"), ("jpg", "art"), ("jpeg", "art"),
   ("exe", "software"), ("msi", "software"), ("dmg", "software"), ("pkg", "software"),
   ("deb", "software"), ("rpm", "software"), ("sh", "software"), ("appimage", "software"),
   ("apk", "android"), ("iso", "software"), ("rom", "software"), ("img", "software")]

/-- `AssetCategorizer.ARCHIVE_EXT`. -/
def ARCHIVE_EXT : List String := ["zip", "tar", "gz", "bz2", "7z", "rar"]

/-- `AssetCategorizer.PLATFORM_MAP`. -/
def PLATFORM_MAP : List (String × String) :=
  [("audio", "audio"), ("android", "android"), ("linux", "software"),
   ("mac", "software"), ("macos", "software"), ("osx", "software"),
   ("windows", "software"), ("steam", "game"), ("origin", "game"),
   ("uplay", "game"), ("video", "video"), ("ebook", "ebook"),
   ("ebook_apk", "android"), ("ebook_pdf", "ebook"), ("ebook_epub", "ebook"),
   ("ebook_mobi", "ebook")]

/-- Python `dict` lookup on an association list. -/
def lookupMap (m : List (String × String)) (k : String) : Option String :=
  (m.find? (fun p => p.1 == k)).map (fun p => p.2)

/-- Python `str.lower()` (ASCII case mapping, which is all these inputs use). -/
def strLower (s : String) : String :=
  String.mk (s.data.map Char.toLower)

/-- The segment after the last occurrence of `sep`
(`s.split(sep)[-1]`; the whole string when `sep` does not occur). -/
def afterLastSep (sep : Char) (cs : List Char) : List Char :=
  cs.foldl (fun acc c => if c == sep then [] else acc ++ [c]) []

/-- The segment before the first occurrence of `sep`
(`s.split(sep, 1)[0]`; the whole string when `sep` does not occur). -/
def beforeFirstSep (sep : Char) : List Char → List Char
  | [] => []
  | c :: cs => if c == sep then [] else c :: beforeFirstSep sep cs

/-- `file_name.split(".")[-1].lower() if "." in file_name else ""`. -/
def extOf (file_name : String) : String :=
  if file_name.data.contains '.' then
    String.mk ((afterLastSep '.' file_name.data).map Char.toLower)
  else ""

/-- `AssetCategorizer._text_rules`: the ordered keyword rules.  Each
`re.search` call is translated to the matching predicate of its pattern
(literal alternatives, plus the `\s`, `\b` and `[- ]?` fragments). -/
def textRules (text : String) : Option String :=
  if strHasAny text ["comic", "manga", "graphic novel", "cbz", "cbr"] then some "comic"
  else if strHasAny text ["ebook", "book", "novel", "guide", "pdf", "epub", "mobi"] then some "ebook"
  else if strHasAny text ["soundtrack", "ost", "music", "score", "flac", "mp3"] then some "music"
  else if strHasAny text ["sfx", "sound effect", "fx pack", "foley", "sound pack", "soundfx"] then some "sfx"
  else if strHasAny text ["video", "tutorial", "course", "webinar", "lesson", "masterclass", "recording"] then some "tutorial"
  else if strHasAny text ["dlc", "key", "activation"] then some "key"
  else if strHasSub text "unitypackage" || strHasSubThenWs text "unity" then some "unity"
  else if strHasAny text ["unreal", "ue4", "ue5", "uasset", "uproject"] then some "unreal"
  else if strHasAny text ["3d model", "3d pack", "low poly", "fbx", "obj", "blend", "poly"] then some "3d"
  else if strHasAny text ["rpg maker", "rmmv", "rm2k", "rpgmaker", "rmxp", "rmvx", "rmz"] then some "rpg maker"
  else if strHasSubBoundary text "rpg" || strHasAny text ["roleplaying", "role-playing", "role playing"] then some "rpg"
  else if strHasAny text ["tile", "tileset", "grid map"] then some "tileset"
  else if strHasAny text ["sprite", "spritesheet", "pixel art", "icon pack", "ui pack", "art pack", "texture", "background", "asset pack", "game dev assets"] then some "sprites"
  else if strHasAny text ["character", "npc", "enemy pack", "portrait", "bust"] then some "characters"
  else if strHasAny text ["ui kit", "interface", "hud", "menu"] then some "ui"
  else if strHasAny text ["linux", "windows", "mac", "appimage", "installer", "exe", "client", "tool"] then some "software"
  else if strHasAny text ["source code", "sourcecode", "unity project", "unreal project", "godot", "plugin", "addon"] then some "source"
  else none

/-- `add_tag` inside `categorize_with_tags`: append when truthy and fresh. -/
def addTag (tags : List String) (cat : String) : List String :=
  if cat ≠ "" && !(tags.contains cat) then tags ++ [cat] else tags

/-- One step of the AI-guess loop:
`for g in ai_guesses: if not primary: primary = g; add_tag(g)`. -/
def aiStep (st : Option String × List String) (g : String) : Option String × List String :=
  let primary := if pyTruthyS st.1 then st.1 else some g
  (primary, addTag st.2 g)

/-- High-confidence extension hits (first block of `categorize_with_tags`). -/
def extStage (ext : String) : Option String × List String :=
  match lookupMap EXT_MAP ext with
  | some c => if c ≠ "archive" then (some c, addTag [] c) else (none, [])
  | none => (none, [])

/-- Platform hints (second block of `categorize_with_tags`). -/
def platformStage (platform : String) (st : Option String × List String) :
    Option String × List String :=
  match lookupMap PLATFORM_MAP platform with
  | some g =>
      if g ≠ "archive" then
        ((if pyTruthyS st.1 then st.1 else some g), addTag st.2 g)
      else st
  | none => st

/-- Keyword rules over the combined text (third block). -/
def textStage (combined : String) (st : Option String × List String) :
    Option String × List String :=
  match textRules combined with
  | some h => ((if pyTruthyS st.1 then st.1 else some h), addTag st.2 h)
  | none => st

/-- `if not primary and archive_hint: primary = "archive"`. -/
def archiveFallback (archiveHint : Bool) (st : Option String × List String) :
    Option String × List String :=
  if !pyTruthyS st.1 && archiveHint then (some "archive", addTag st.2 "archive") else st

/-- `if not primary and ext in EXT_MAP: primary = EXT_MAP[ext]`. -/
def extFallback (ext : String) (st : Option String × List String) :
    Option String × List String :=
  match lookupMap EXT_MAP ext with
  | some c => if !pyTruthyS st.1 then (some c, addTag st.2 c) else st
  | none => st

/-- `if not primary: primary = "other"`. -/
def otherFallback (st : Option String × List String) : Option String × List String :=
  if !pyTruthyS st.1 then (some "other", addTag st.2 "other") else st

/-- `AssetCategorizer.categorize_with_tags`.  The optional AI suggestions
(`_ai_guess`, an external network collaborator) enter as the explicit
`aiGuesses` argument; the code merges them exactly as the loop does. -/
def categorizeWithTags (file_name platform bundle_title product_title : String)
    (aiGuesses : List String) : String × List String :=
  let ext := extOf file_name
  let combined := strLower (bundle_title ++ " " ++ product_title ++ " " ++ file_name)
  let st :=
    otherFallback (extFallback ext
      (archiveFallback (ARCHIVE_EXT.contains ext)
        (aiGuesses.foldl aiStep
          (textStage combined (platformStage (strLower platform) (extStage ext))))))
  let primary := st.1.getD "other"
  (primary, st.2.filter (fun t => t ≠ primary))

/-! ## Asset store (`AssetDB`, asset_db.py)

The SQLite `assets` table is a list of rows, `asset_tags` a list of
`(asset_id, tag)` pairs (its `UNIQUE(asset_id, tag)` constraint makes
`INSERT OR IGNORE` a conditional append), `NULL` is `none`.  The
external-content FTS index always mirrors the current
(file_name, product_title, bundle_title) of each row (the code rewrites the
FTS entry on every upsert), so full-text matches are computed from the row
itself. -/

/-- Python `str.strip()` (ASCII whitespace). -/
def charsTrim (cs : List Char) : List Char :=
  ((cs.dropWhile Char.isWhitespace).reverse.dropWhile Char.isWhitespace).reverse

def strTrim (s : String) : String :=
  String.mk (charsTrim s.data)

/-- One row of the `assets` table. -/
structure AssetRow where
  id : Nat := 0
  order_id : Option String := none
  bundle_title : Option String := none
  product_title : Option String := none
  platform : Option String := none
  file_name : Option String := none
  url : Option String := none
  download_urls : Option String := none
  ext : Option String := none
  uploaded_at : Option String := none
  md5 : Option String := none
  trove : Nat := 0
  size_bytes : Option Nat := none
  category : Option String := none
  image_url : Option String := none
  description : Option String := none
  order_name : Option String := none
  activation_key : Option String := none
  download_error : Option String := none
  added_ts : Nat := 0
  downloaded : Nat := 0
  download_path : Option String := none
deriving DecidableEq, Repr

/-- The asset dict handed to `upsert_assets` (missing keys are `none`;
`download_urls` is still the Python list here, serialized by the upsert). -/
structure Payload where
  order_id : Option String := none
  bundle_title : Option String := none
  product_title : Option String := none
  platform : Option String := none
  category : Option String := none
  image_url : Option String := none
  description : Option String := none
  file_name : Option String := none
  url : Option String := none
  download_urls : Option (List String) := none
  ext : Option String := none
  uploaded_at : Option String := none
  md5 : Option String := none
  trove : Bool := false
  size_bytes : Option Nat := none
  order_name : Option String := none
  activation_key : Option String := none
  download_error : Option String := none
  download_path : Option String := none
  added_ts : Option Nat := none
  tags : List String := []
deriving DecidableEq, Repr

/-- The relational store. -/
structure DB where
  assets : List AssetRow := []
  tags : List (Nat × String) := []
  nextId : Nat := 1
deriving DecidableEq, Repr

/-- `json.dumps` of a list of strings (only ever produced, never parsed). -/
def jsonListString (l : List String) : String :=
  "[" ++ String.intercalate ", " (l.map (fun s => "\"" ++ s ++ "\"")) ++ "]"

/-- The row hit by `ON CONFLICT(url)`: a conflict needs a non-NULL inserted
url equal to an existing row's url (SQLite UNIQUE ignores NULLs). -/
def conflictRow (db : DB) (a : Payload) : Option AssetRow :=
  match a.url with
  | none => none
  | some u => db.assets.find? (fun r => r.url == some u)

/-- The tag loop of `upsert_assets`:
`INSERT OR IGNORE INTO asset_tags(asset_id, tag)` of
`str(tag).strip().lower()` for each truthy tag. -/
def insertTagRows (tags : List (Nat × String)) (id : Nat) (ts : List String) :
    List (Nat × String) :=
  ts.foldl
    (fun acc t =>
      if t = "" then acc
      else
        let pair := (id, strLower (strTrim t))
        if acc.contains pair then acc else acc ++ [pair])
    tags

/-- The `ON CONFLICT(url) DO UPDATE SET` row.  The INSERT of `upsert_assets`
lists only the columns (order_id, bundle_title, product_title, platform,
category, file_name, url, ext, uploaded_at, md5, trove, size_bytes, added_ts,
download_path, image_url, description); `order_name`, `activation_key`,
`download_error` and `download_urls` are absent from it, so `excluded.col` is
the NULL default for them (written below as `coalesce none _`).  `url`,
`added_ts` and `downloaded` are not in the SET list and stay. -/
def applyConflictUpdate (a : Payload) (r : AssetRow) : AssetRow :=
  { r with
    order_id := a.order_id
    bundle_title := a.bundle_title
    product_title := a.product_title
    platform := a.platform
    category := coalesce a.category r.category
    file_name := a.file_name
    ext := a.ext
    uploaded_at := a.uploaded_at
    md5 := a.md5
    trove := if a.trove then 1 else 0
    size_bytes := a.size_bytes
    order_name := coalesce none r.order_name
    download_path := coalesce a.download_path r.download_path
    download_urls := coalesce none r.download_urls
    image_url := coalesce a.image_url r.image_url
    description := coalesce a.description r.description
    activation_key := coalesce none r.activation_key
    download_error := coalesce none r.download_error }

/-- The plain-INSERT row: the columns absent from the column list
(`order_name`, `activation_key`, `download_error`, `download_urls`,
`downloaded`) get their defaults. -/
def newRowFromPayload (now id : Nat) (a : Payload) : AssetRow :=
  { id := id
    order_id := a.order_id
    bundle_title := a.bundle_title
    product_title := a.product_title
    platform := a.platform
    category := a.category
    file_name := a.file_name
    url := a.url
    ext := a.ext
    uploaded_at := a.uploaded_at
    md5 := a.md5
    trove := if a.trove then 1 else 0
    size_bytes := a.size_bytes
    added_ts := a.added_ts.getD now
    download_path := a.download_path
    image_url := a.image_url
    description := a.description }

/-- The conflict path of one upsert iteration (update the hit row in place,
then add the tag rows under its id). -/
def upsertConflict (db : DB) (a : Payload) (r : AssetRow) : DB :=
  { db with
    assets := db.assets.map (fun x => if x.id == r.id then applyConflictUpdate a r else x)
    tags := insertTagRows db.tags r.id a.tags }

/-- The insert path of one upsert iteration. -/
def upsertInsert (now : Nat) (db : DB) (a : Payload) : DB :=
  { assets := db.assets ++ [newRowFromPayload now db.nextId a]
    tags := insertTagRows db.tags db.nextId a.tags
    nextId := db.nextId + 1 }

/-- One iteration of `upsert_assets`. -/
def upsertOne (now : Nat) (db : DB) (a : Payload) : DB :=
  match conflictRow db a with
  | some r => upsertConflict db a r
  | none => upsertInsert now db a

/-- `AssetDB.upsert_assets`. -/
def upsertAssets (now : Nat) (db : DB) (assets : List Payload) : DB :=
  assets.foldl (upsertOne now) db

/-- `AssetDB.mark_downloaded`. -/
def markDownloaded (db : DB) (url download_path : String) : DB :=
  if url = "" then db
  else
    { db with
      assets := db.assets.map (fun r =>
        if r.url == some url then
          { r with downloaded := 1, download_path := some download_path,
                   download_error := none }
        else r) }

/-- `AssetDB.mark_download_error` (`error[:500]`). -/
def markDownloadError (db : DB) (url error : String) : DB :=
  if url = "" then db
  else
    { db with
      assets := db.assets.map (fun r =>
        if r.url == some url then
          { r with download_error := some (String.mk (error.data.take 500)) }
        else r) }

/-- `AssetDB.set_tags`: delete the rows of the asset, then insert the
stripped (not lowercased) truthy tags. -/
def setTags (db : DB) (asset_id : Nat) (tags : List String) : DB :=
  let clean := (tags.filter (fun t => strTrim t ≠ "")).map strTrim
  { db with
    tags := clean.foldl
      (fun acc t =>
        let pair := (asset_id, t)
        if acc.contains pair then acc else acc ++ [pair])
      (db.tags.filter (fun p => p.1 ≠ asset_id)) }

/-- `AssetDB.add_tags`: insert-or-ignore the stripped (not lowercased) tags. -/
def addTags (db : DB) (asset_id : Nat) (tags : List String) : DB :=
  let clean := (tags.filter (fun t => strTrim t ≠ "")).map strTrim
  { db with
    tags := clean.foldl
      (fun acc t =>
        let pair := (asset_id, t)
        if acc.contains pair then acc else acc ++ [pair])
      db.tags }

/-- `AssetDB.set_category` (`category.lower()`). -/
def setCategory (db : DB) (asset_id : Nat) (category : String) : DB :=
  { db with
    assets := db.assets.map (fun r =>
      if r.id == asset_id then { r with category := some (strLower category) } else r) }

/-! ### Search (`search_assets`, `_fts_query`, `_sort_clause`) -/

/-- Python `str.split()` with no argument: split on whitespace runs. -/
def splitWsAux : List Char → List Char → List String
  | cur, [] => if cur.isEmpty then [] else [String.mk cur.reverse]
  | cur, c :: cs =>
      if c.isWhitespace then
        if cur.isEmpty then splitWsAux [] cs
        else String.mk cur.reverse :: splitWsAux [] cs
      else splitWsAux (c :: cur) cs

def pySplitWs (s : String) : List String :=
  splitWsAux [] s.data

/-- `_fts_query`: `query.strip().replace(CHR34, "").split()`, the terms the
FTS MATCH conjoins with AND. -/
def queryTerms (q : String) : List String :=
  pySplitWs (String.mk ((charsTrim q.data).filter (fun c => c ≠ '"')))

/-- FTS5 default tokenization of a field: case-folded maximal alphanumeric
runs. -/
def ftsTokenAux : List Char → List Char → List (List Char)
  | cur, [] => if cur.isEmpty then [] else [cur.reverse]
  | cur, c :: cs =>
      if c.isAlpha || c.isDigit then ftsTokenAux (c :: cur) cs
      else if cur.isEmpty then ftsTokenAux [] cs
      else cur.reverse :: ftsTokenAux [] cs

def ftsTokens (s : String) : List (List Char) :=
  ftsTokenAux [] (s.data.map Char.toLower)

/-- The tokens of the three indexed columns of a row. -/
def rowTokens (a : AssetRow) : List (List Char) :=
  ftsTokens (a.file_name.getD "") ++ ftsTokens (a.product_title.getD "") ++
    ftsTokens (a.bundle_title.getD "")

/-- One FTS query term matches a row when it equals (case-folded) one of the
row's tokens. -/
def rowHasTerm (a : AssetRow) (t : String) : Bool :=
  (rowTokens a).contains (strLower t).data

/-- `f MATCH term1 AND term2 AND ...`. -/
def ftsMatchRow (a : AssetRow) (terms : List String) : Bool :=
  terms.all (rowHasTerm a)

def hasTag (db : DB) (id : Nat) (t : String) : Bool :=
  db.tags.any (fun p => p.1 == id && p.2 == t)

/-- The WHERE clause of `search_assets`, built once and shared by the page
query and the COUNT query (each `if filter:` gate is Python truthiness). -/
def searchPred (db : DB)
    (query order_id platform bundle product ext category : Option String)
    (trove downloaded : Option Bool) (a : AssetRow) : Bool :=
  (match query with
   | some q => if q ≠ "" then ftsMatchRow a (queryTerms q) else true
   | none => true) &&
  (match order_id with
   | some v => if v ≠ "" then a.order_id == some v else true
   | none => true) &&
  (match platform with
   | some v => if v ≠ "" then a.platform == some v else true
   | none => true) &&
  (match bundle with
   | some v => if v ≠ "" then a.bundle_title == some v else true
   | none => true) &&
  (match product with
   | some v => if v ≠ "" then a.product_title == some v else true
   | none => true) &&
  (match ext with
   | some v => if v ≠ "" then a.ext == some (strLower v) else true
   | none => true) &&
  (match category with
   | some v => if v ≠ "" then (a.category == some (strLower v) || hasTag db a.id (strLower v))
               else true
   | none => true) &&
  (match trove with
   | some b => a.trove == (if b then 1 else 0)
   | none => true) &&
  (match downloaded with
   | some b => a.downloaded == (if b then 1 else 0)
   | none => true)

/-- `COLLATE NOCASE` key of a nullable text column: SQL NULLs sort first
ascending, then case-folded text. -/
def encNocase (o : Option String) : List Char :=
  match o with
  | none => []
  | some s => Char.ofNat 1 :: s.data.map Char.toLower

/-- `ORDER BY a.product_title COLLATE NOCASE ASC, a.file_name COLLATE NOCASE ASC`. -/
def alphaKey (a : AssetRow) : List (List Char) :=
  [encNocase a.product_title, encNocase a.file_name]

/-- `ORDER BY a.bundle_title COLLATE NOCASE ASC, a.product_title COLLATE NOCASE ASC`. -/
def bundleKey (a : AssetRow) : List (List Char) :=
  [encNocase a.bundle_title, encNocase a.product_title]

/-- `COALESCE(a.uploaded_at, a.added_ts)`: an SQLite value that is either an
INTEGER or a TEXT. -/
def recentVal (a : AssetRow) : Sum Nat (List Char) :=
  match a.uploaded_at with
  | some s => Sum.inr s.data
  | none => Sum.inl a.added_ts

/-- SQLite value ordering: all INTEGERs sort before all TEXTs. -/
def sqlValLE : Sum Nat (List Char) → Sum Nat (List Char) → Bool
  | Sum.inl a, Sum.inl b => a ≤ b
  | Sum.inl _, Sum.inr _ => true
  | Sum.inr _, Sum.inl _ => false
  | Sum.inr a, Sum.inr b => a ≤ b

/-- `_sort_clause` as a row comparator ("recent" is `DESC`, hence flipped). -/
def sortLEb (sort : String) (a b : AssetRow) : Bool :=
  if sort = "alpha" then decide (alphaKey a ≤ alphaKey b)
  else if sort = "bundle" then decide (bundleKey a ≤ bundleKey b)
  else sqlValLE (recentVal b) (recentVal a)

/-- `AssetDB.search_assets`: filter, order, paginate; the COUNT query reuses
the same WHERE clause without the ORDER/LIMIT. -/
def searchAssets (db : DB)
    (query order_id platform bundle product ext category : Option String)
    (trove downloaded : Option Bool) (sort : String) (limit offset : Nat) :
    List AssetRow × Nat :=
  let rows := db.assets.filter
    (searchPred db query order_id platform bundle product ext category trove downloaded)
  let sorted := List.insertionSort (fun a b => sortLEb sort a b = true) rows
  ((sorted.drop offset).take limit, rows.length)

/-- Number of rows keyed by the (non-NULL) url `u`. -/
def countUrl (db : DB) (u : String) : Nat :=
  db.assets.countP (fun r => r.url == some u)

/-- The store invariants SQLite maintains for this schema: distinct rowids
below the autoincrement counter, and at most one row per non-NULL url
(`url TEXT UNIQUE`). -/
def DBWF (db : DB) : Prop :=
  (db.assets.map (fun r => r.id)).Nodup ∧
    (∀ r ∈ db.assets, r.id < db.nextId) ∧
    ∀ u : String, countUrl db u ≤ 1

/-! ## Download manager (`DownloadLibrary`, download_library.py) -/

/-- Resolution of one non-trove download target. -/
inductive FetchDecision where
  | skip : FetchDecision
  | fetch : FetchDecision
deriving DecidableEq, Repr

/-- The scheduling gate in `_process_product` (lines 347-371): with a cache
entry and no forced update, an existing nonzero-size file is skipped
(skip callback), otherwise the download task is scheduled.  `file` is the
local file state: `some n` means present with size `n`. -/
def processProductGate (cachePresent update : Bool) (file : Option Nat) : FetchDecision :=
  if cachePresent && !update then
    if (match file with | some n => decide (n > 0) | none => false) then .skip
    else .fetch
  else .fetch

/-- The re-check inside `_check_cache_and_download` (lines 460-469): with a
cache entry and no forced update, `os.path.exists` alone (no size check)
raises `FileExistsError`, which `_safe_download` reports as a skip. -/
def checkCacheGate (cachePresent update : Bool) (filePresent : Bool) : FetchDecision :=
  if cachePresent && !update then
    if filePresent then .skip else .fetch
  else .fetch

/-- A non-trove target runs through the `_process_product` gate and, when
scheduled, through the `_check_cache_and_download` gate (the cache map and
the file are unchanged in between). -/
def nonTroveOutcome (cachePresent update : Bool) (file : Option Nat) : FetchDecision :=
  match processProductGate cachePresent update file with
  | .skip => .skip
  | .fetch => checkCacheGate cachePresent update file.isSome

/-- A trove cache entry: `{uploaded_at, md5}`. -/
structure TroveCacheEntry where
  uploaded_at : Option String := none
  md5 : Option String := none
deriving DecidableEq, Repr

/-- The gate in `_process_trove_product` (lines 183-201): a present cache
entry with no forced update is `continue` (no file check at all); otherwise
the change-indicator comparison decides.  `true` means the download task is
scheduled. -/
def troveShouldDownload (cacheInfo : Option TroveCacheEntry) (update : Bool)
    (uploadedAt md5 : String) : Bool :=
  match cacheInfo with
  | some ci =>
      if !update then false
      else decide (some uploadedAt ≠ ci.uploaded_at) && decide (some md5 ≠ ci.md5)
  | none =>
      decide ((some uploadedAt : Option String) ≠ none) &&
        decide ((some md5 : Option String) ≠ none)

/-- `_download_file` under a declared `content-length`: stream the chunks
(the cooperative stop flag is polled before each chunk), then fail when the
byte total falls short of the declared length; an excess only logs a
warning.  Returns the byte total or the raised error. -/
def downloadFileResult (stop : Bool) (declared : Option Nat) (chunks : List Nat) :
    Except String Nat :=
  if stop && !chunks.isEmpty then Except.error "interrupt"
  else
    let dl := chunks.foldl (fun acc c => acc + c) 0
    match declared with
    | none => Except.ok dl
    | some total_length =>
        if dl < total_length then Except.error "short"
        else Except.ok dl

/-- `_process_download`: on any exception from `_download_file` the partial
destination file is removed (`os.remove`) and `success = False` is returned
(which `_safe_download` reports through the failure callback); on success the
cache is updated and the file keeps the streamed bytes.  Result:
`(success, final file state)`. -/
def processDownload (stop : Bool) (declared : Option Nat) (chunks : List Nat) :
    Bool × Option Nat :=
  match downloadFileResult stop declared chunks with
  | Except.ok n => (true, some n)
  | Except.error _ => (false, none)

/-- `DownloadLibrary.__init__` platform normalization: `None` or a list
containing "all" becomes the empty allow-list, then everything is lowercased. -/
def dlPlatformIncludeInit (platform_include : Option (List String)) : List String :=
  (match platform_include with
   | none => []
   | some l => if l.contains "all" then [] else l).map strLower

/-- `DownloadLibrary._should_download_platform` (lines 681-685). -/
def dlShouldDownloadPlatform (platform_include : List String) (platform : String) : Bool :=
  let p := strLower platform
  if platform_include ≠ [] && !(platform_include.contains p) then false else true

/-- `LibraryIndexer._should_download_platform` (lines 994-996): the indexer
ignores its configured allow-list and collects every platform variant. -/
def indexerShouldDownloadPlatform (platforms : List String) (platform : String) : Bool :=
  true

/-! ## Catalog indexer (`LibraryIndexer`, library_index.py)

Order payloads (the JSON of `/api/v1/order/<key>`) become structures whose
fields are the keys the indexer reads; string-valued `dict.get` chains keep
Python truthiness via `pyOrS`/`pyTruthyS`.  The image/description heuristics
(`_extract_image`, `_extract_description`) scan the raw JSON for URL-shaped
strings; they are abstracted to their results (`image`, `description`,
`instructions` fields), which no claim depends on. -/

/-- `_clean_name` (download_library.py lines 16-23). -/
def replaceChar (c : Char) (repl : List Char) (cs : List Char) : List Char :=
  cs.flatMap (fun x => if x == c then repl else [x])

def cleanName (s : String) : String :=
  let cs := replaceChar ':' [' ', '-'] (replaceChar '+' ['_'] s.data)
  let kept := cs.filter (fun c =>
    c.isAlpha || c.isDigit || ([' ', '_', '.', '-', '[', ']'] : List Char).contains c)
  String.mk ((charsTrim kept).reverse.dropWhile (fun c => c == '.')).reverse

/-- `os.path.join` of two components (POSIX). -/
def joinPath (a b : String) : String :=
  a ++ "/" ++ b

/-- `LibraryIndexer._canonical_url`: `url.split("?", 1)[0]`. -/
def canonicalUrl (url : String) : String :=
  String.mk (beforeFirstSep '?' url.data)

/-- `self._canonical_url(url).split("/")[-1]`. -/
def urlFileName (url : String) : String :=
  String.mk (afterLastSep '/' (canonicalUrl url).data)

/-- The indexer configuration and ambient state: library path, extension
filters (lowercased in `__init__`), the ignored platform allow-list, the
current time, and the AI classification collaborator as an oracle
(`fun _ _ _ _ => []` models the unconfigured service). -/
structure IndexerEnv where
  library_path : String := ""
  ext_include : List String := []
  ext_exclude : List String := []
  platforms : List String := []
  now : Nat := 0
  ai : String → String → String → String → List String := fun _ _ _ _ => []

/-- `LibraryIndexer._should_download_file`: note it takes
`filename.split(".")[-1].lower()` without checking for a dot. -/
def indexerShouldDownloadFile (env : IndexerEnv) (filename : String) : Bool :=
  let ext := String.mk ((afterLastSep '.' filename.data).map Char.toLower)
  if env.ext_include ≠ [] then env.ext_include.contains ext
  else if env.ext_exclude ≠ [] then !(env.ext_exclude.contains ext)
  else true

/-- `categorize_with_tags` as invoked by the indexer, with the AI oracle
supplying `_ai_guess`. -/
def categorizeInEnv (env : IndexerEnv) (file_name platform bundle product : String) :
    String × List String :=
  categorizeWithTags file_name platform bundle product (env.ai file_name platform bundle product)

/-- One entry of `tpkd_dict.all_tpks`. -/
structure Tpk where
  key : Option String := none
  machine_name : Option String := none
  gamekey : Option String := none
  timestamp : Option String := none
  instructions : Option String := none
deriving DecidableEq, Repr

/-- One entry of `product["all_tpkds"]`.  `has_tpkd` is the truthiness of
`entry.get("tpkd_dict")`; `tpkd_machine`/`tpkd_gamekey` are its
`machine_name`/`gamekey` members. -/
structure TpkdEntry where
  platform : Option String := none
  key : Option String := none
  has_tpkd : Bool := false
  tpkd_machine : Option String := none
  tpkd_gamekey : Option String := none
  timestamp : Option String := none
  instructions : Option String := none
  url_web : Option String := none
  md5 : Option String := none
deriving DecidableEq, Repr

/-- One entry of `download_struct`.  `url_web`/`url_bittorrent` are
`file_type["url"]["web"]`/`["bittorrent"]` (`url_web = some _` models
`"url" in file_type and "web" in file_type["url"]`). -/
structure FileType where
  platform : Option String := none
  key : Option String := none
  has_tpkd : Bool := false
  tpkd_machine : Option String := none
  tpkd_gamekey : Option String := none
  url_web : Option String := none
  url_bittorrent : Option String := none
  md5 : Option String := none
  timestamp : Option String := none
  uploaded_at : Option String := none
deriving DecidableEq, Repr

/-- One entry of `product["downloads"]`. -/
structure DownloadType where
  platform : Option String := none
  download_struct : List FileType := []
deriving DecidableEq, Repr

/-- One subproduct (or the synthesized single product). -/
structure Product where
  human_name : String := ""
  downloads : List DownloadType := []
  all_tpks : List Tpk := []
  tpkd_entries : List TpkdEntry := []
  category : Option String := none
  instructions : Option String := none
  image : Option String := none
  description : Option String := none
deriving DecidableEq, Repr

/-- One order response.  `all_tpks` is the order-level `tpkd_dict.all_tpks`
(used by the synthesized single-product branch). -/
structure Order where
  product_human_name : Option String := none
  product_category : Option String := none
  product_image : Option String := none
  subproducts : List Product := []
  downloads : List DownloadType := []
  all_tpks : List Tpk := []
deriving DecidableEq, Repr

/-- `LibraryIndexer._as_asset`. -/
def asAsset (env : IndexerEnv) (order_id bundle_title product_title platform category
    file_name url : String) (md5 uploaded_at : Option String) (trove : Bool)
    (image_url description : Option String) (tags : List String)
    (activation_key : Option String) (order_name : Option String)
    (download_urls : List String) : Payload :=
  let ext := extOf file_name
  let local_path :=
    if trove then joinPath (joinPath "Humble Trove" product_title) file_name
    else joinPath (joinPath bundle_title product_title) file_name
  let category := strLower (if category ≠ "" then category else "other")
  { order_id := some order_id
    bundle_title := some bundle_title
    product_title := some product_title
    platform := some platform
    category := some category
    file_name := some file_name
    url := some url
    ext := some ext
    uploaded_at := uploaded_at
    md5 := md5
    trove := trove
    download_path := some (joinPath env.library_path local_path)
    added_ts := some env.now
    image_url := image_url
    description := description
    tags := tags
    order_name := some ((pyOrS order_name (some bundle_title)).getD "")
    activation_key := activation_key
    download_urls := some download_urls }

/-- The `for tk in all_tpks` loop of `_collect_bundle_assets` (one entry). -/
def tpkAsset (env : IndexerEnv) (order_id bundle_title product_title : String)
    (image_url description : Option String) (tk : Tpk) : Option Payload :=
  let key_val := pyOrS (pyOrS tk.key tk.machine_name) tk.gamekey
  if pyTruthyS key_val then
    some (asAsset env order_id bundle_title product_title "key" "key" (key_val.getD "") ""
      none tk.timestamp false image_url (pyOrS description tk.instructions) ["key"]
      key_val (some bundle_title) [])
  else none

/-- The `for entry in tpkd_entries` loop of `_collect_bundle_assets`
(one entry). -/
def tpkdEntryAssets (env : IndexerEnv) (order_id bundle_title product_title : String)
    (image_url description : Option String) (entry : TpkdEntry) : List Payload :=
  let platform_hint := strLower (entry.platform.getD "")
  if pyTruthyS entry.key || entry.has_tpkd then
    let key_val := pyOrS (pyOrS entry.key entry.tpkd_machine) entry.tpkd_gamekey
    if pyTruthyS key_val then
      [asAsset env order_id bundle_title product_title
        (if platform_hint ≠ "" then platform_hint else "key") "key" (key_val.getD "") ""
        none entry.timestamp false image_url (pyOrS description entry.instructions)
        ["key"] key_val (some bundle_title) []]
    else []
  else
    match entry.url_web with
    | some url =>
        let filename := urlFileName url
        if indexerShouldDownloadFile env filename then
          let cat := categorizeInEnv env filename platform_hint bundle_title product_title
          [asAsset env order_id bundle_title product_title
            (if platform_hint ≠ "" then platform_hint else "other") cat.1 filename
            (canonicalUrl url) entry.md5 entry.timestamp false image_url description
            (cat.1 :: cat.2) none (some bundle_title) [url]]
        else []
    | none => []

/-- The `for file_type in download_struct` body of `_collect_bundle_assets`
(one entry). -/
def fileTypeAssets (env : IndexerEnv) (order_id bundle_title product_title : String)
    (image_url description : Option String) (platform_hint : String) (ft : FileType) :
    List Payload :=
  let file_platform := strLower ((pyOrS ft.platform (some platform_hint)).getD "")
  if !indexerShouldDownloadPlatform env.platforms file_platform then []
  else if pyTruthyS ft.key || ft.has_tpkd then
    let key_val := pyOrS (pyOrS ft.key ft.tpkd_machine) ft.tpkd_gamekey
    if pyTruthyS key_val then
      [asAsset env order_id bundle_title product_title "key" "key" (key_val.getD "") ""
        none (pyOrS ft.timestamp ft.uploaded_at) false image_url description ["key"]
        key_val (some bundle_title) []]
    else []
  else
    match ft.url_web with
    | some url =>
        let filename := urlFileName url
        if indexerShouldDownloadFile env filename then
          let url_list := [url] ++
            (match ft.url_bittorrent with
             | some bt => if bt ≠ "" then [bt] else []
             | none => [])
          let cat := categorizeInEnv env filename file_platform bundle_title product_title
          [asAsset env order_id bundle_title product_title file_platform cat.1 filename
            (canonicalUrl url) ft.md5 (pyOrS ft.timestamp ft.uploaded_at) false image_url
            description (cat.1 :: cat.2) none (some bundle_title) url_list]
        else []
    | none => []

/-- The `for download_type in downloads` loop (the cooperative stop flag is
checked at each loop boundary; a constant tripped flag empties the loops). -/
def downloadTypeAssets (env : IndexerEnv) (stop : Bool)
    (order_id bundle_title product_title : String)
    (image_url description : Option String) (dt : DownloadType) : List Payload :=
  if stop then []
  else
    let platform_hint := strLower (dt.platform.getD "")
    dt.download_struct.flatMap
      (fileTypeAssets env order_id bundle_title product_title image_url description
        platform_hint)

/-- `LibraryIndexer._collect_bundle_assets`. -/
def collectBundleAssets (env : IndexerEnv) (stop : Bool)
    (order_id bundle_title : String) (product : Product) : List Payload :=
  let product_title := cleanName product.human_name
  let image_url := product.image
  let description := product.description
  let part1 := product.all_tpks.filterMap
    (tpkAsset env order_id bundle_title product_title image_url description)
  let part2 := product.tpkd_entries.flatMap
    (tpkdEntryAssets env order_id bundle_title product_title image_url description)
  if product.downloads.isEmpty && product.all_tpks.isEmpty &&
      product.tpkd_entries.isEmpty then
    -- stub asset so the purchase stays visible
    let stub_url := "stub:" ++ order_id ++ ":" ++ product_title
    let raw := (pyOrS (pyOrS product.category (some bundle_title)) (some "other")).getD ""
    let stub_category := if strLower raw ≠ "" then strLower raw else "other"
    part1 ++ part2 ++
      [asAsset env order_id bundle_title product_title "other" stub_category
        (product_title ++ ".stub") stub_url none none false image_url
        (pyOrS description product.instructions) [stub_category, "stub"] none
        (some bundle_title) []]
  else
    part1 ++ part2 ++
      (if stop then []
       else product.downloads.flatMap
         (downloadTypeAssets env stop order_id bundle_title product_title image_url
           description))

/-- The loop-local variables of `collect` after the per-key loop.  Python
locals survive the loop (and survive a failed iteration), so each is `none`
until first assigned; `orderVar = some none` means the last `_fetch_order`
returned `None`. -/
structure CollectLoopState where
  lastKey : Option String := none
  orderVar : Option (Option Order) := none
  bundleVar : Option String := none
  orderCategoryVar : Option String := none
  productsVar : Option (List Product) := none

/-- The `for order_id in purchase_keys` loop of `collect` (lines 408-418):
it only assigns the loop locals; no assets are collected inside it. -/
def collectLoop (fetchOrder : String → Option Order) (stop : Bool) :
    CollectLoopState → List String → CollectLoopState
  | st, [] => st
  | st, k :: ks =>
      if stop then { st with lastKey := some k }
      else
        match fetchOrder k with
        | none =>
            collectLoop fetchOrder stop { st with lastKey := some k, orderVar := some none } ks
        | some o =>
            collectLoop fetchOrder stop
              { lastKey := some k
                orderVar := some (some o)
                bundleVar := some (cleanName (o.product_human_name.getD ""))
                orderCategoryVar := some (strLower (o.product_category.getD ""))
                productsVar := some o.subproducts }
              ks

/-- The non-trove branch of `LibraryIndexer.collect` (lines 407-436),
including the dedented `if not products:` block that runs once, after the
loop, on the final values of the loop locals.  `none` models the uncaught
runtime error (`NameError` when `products` was never assigned,
`AttributeError` when the last fetch returned `None`). -/
def collectNonTrove (env : IndexerEnv) (fetchOrder : String → Option Order)
    (purchase_keys : List String) (stop : Bool) : Option (List Payload) :=
  let st := collectLoop fetchOrder stop {} purchase_keys
  match st.productsVar with
  | none => none
  | some ps =>
      if ps.isEmpty then
        match st.orderVar, st.bundleVar, st.lastKey with
        | some (some o), some bundle_title, some order_id =>
            let synth : Product :=
              { human_name :=
                  if bundle_title ≠ "" then bundle_title
                  else o.product_human_name.getD ""
                downloads := o.downloads
                all_tpks := o.all_tpks
                category := st.orderCategoryVar
                image := o.product_image }
            if stop then some []
            else some (collectBundleAssets env stop order_id bundle_title synth)
        | _, _, _ => none
      else some []

/-! ## Concrete sample data (inputs of the closed theorems and witnesses) -/

def sampleEnv : IndexerEnv := {}

/-- An order with one subproduct holding one downloadable file. -/
def sampleProductOne : Product :=
  { human_name := "Game One"
    downloads := [{ platform := some "windows"
                    download_struct := [{ platform := some "windows"
                                          url_web := some "https://cdn.example.com/game1.zip?sig=1"
                                          md5 := some "m1" }] }] }

def sampleOrderOne : Order :=
  { product_human_name := some "Bundle One", subproducts := [sampleProductOne] }

def sampleProductTwo : Product :=
  { human_name := "Game Two"
    downloads := [{ platform := some "linux"
                    download_struct := [{ platform := some "linux"
                                          url_web := some "https://cdn.example.com/game2.zip?sig=2"
                                          md5 := some "m2" }] }] }

def sampleOrderTwo : Order :=
  { product_human_name := some "Bundle Two", subproducts := [sampleProductTwo] }

/-- An order with no subproducts (takes the synthesized single-product path). -/
def sampleOrderThree : Order :=
  { product_human_name := some "Bundle Three" }

def fetchBothOrders : String → Option Order := fun k =>
  if k = "k1" then some sampleOrderOne
  else if k = "k2" then some sampleOrderTwo
  else none

def fetchThirdOrder : String → Option Order := fun k =>
  if k = "k1" then some sampleOrderOne
  else if k = "k3" then some sampleOrderThree
  else none

/-- A payload carrying every enriched field, url `"u"`. -/
def payloadEnriched : Payload :=
  { url := some "u", category := some "ebook", image_url := some "img"
    description := some "desc", download_path := some "/lib/f"
    activation_key := some "KEY1", download_urls := some ["d1"]
    order_name := some "BundleX", download_error := some "ERR"
    file_name := some "f.pdf", product_title := some "P" }

/-- The two-step category-merge payloads of the spec scenario. -/
def payloadEbookCat : Payload :=
  { url := some "u", category := some "ebook", file_name := some "f.pdf" }

def payloadNullCat : Payload :=
  { url := some "u", category := none, file_name := some "f.pdf" }

/-- Key-only assets as `_collect_bundle_assets` emits them (`url=""`),
for two different products of the same order. -/
def keyPayloadOne : Payload :=
  asAsset sampleEnv "X" "Bundle K" "Widget One" "key" "key" "AAAA-1111" "" none none
    false none none ["key"] (some "AAAA-1111") (some "Bundle K") []

def keyPayloadTwo : Payload :=
  asAsset sampleEnv "X" "Bundle K" "Widget Two" "key" "key" "BBBB-2222" "" none none
    false none none ["key"] (some "BBBB-2222") (some "Bundle K") []

/-- A payload with a NULL url (no merge identity at all). -/
def nullUrlPayload : Payload :=
  { product_title := some "NoUrl" }

/-- A payload with a category and no tags. -/
def catPayload : Payload :=
  { url := some "u", category := some "ebook" }

/-- A small store for the search witness. -/
def searchRowA : AssetRow :=
  { id := 1, file_name := some "Forest Sound Pack.wav"
    product_title := some "Forest Audio", bundle_title := some "Nature Bundle"
    category := some "music", added_ts := 10 }

def searchRowB : AssetRow :=
  { id := 2, file_name := some "art.zip", product_title := some "Art Pack"
    bundle_title := some "Art Bundle", category := some "art", added_ts := 20 }

def sampleSearchDB : DB :=
  { assets := [searchRowB, searchRowA], tags := [(1, "music"), (2, "art")], nextId := 3 }

/-! ## Theorems -/

/-- A truthy primary survives the platform stage. -/
theorem platformStage_keep (p : String) (st : Option String × List String)
    (h : pyTruthyS st.1 = true) : (platformStage p st).1 = st.1 := by
  unfold platformStage
  cases lookupMap PLATFORM_MAP p with
  | none => rfl
  | some g =>
    simp only
    split
    · simp [h]
    · rfl

/-- A truthy primary survives the text stage. -/
theorem textStage_keep (c : String) (st : Option String × List String)
    (h : pyTruthyS st.1 = true) : (textStage c st).1 = st.1 := by
  unfold textStage
  cases textRules c with
  | none => rfl
  | some g => simp [h]

/-- A truthy primary survives the AI-guess loop. -/
theorem aiFold_keep (l : List String) (st : Option String × List String)
    (h : pyTruthyS st.1 = true) : (l.foldl aiStep st).1 = st.1 := by
  induction l generalizing st with
  | nil => rfl
  | cons g gs ih =>
    have hstep : (aiStep st g).1 = st.1 := by simp [aiStep, h]
    have h2 : pyTruthyS (aiStep st g).1 = true := by rw [hstep]; exact h
    rw [List.foldl_cons, ih _ h2, hstep]

/-- A truthy primary survives the archive fallback. -/
theorem archiveFallback_keep (b : Bool) (st : Option String × List String)
    (h : pyTruthyS st.1 = true) : (archiveFallback b st).1 = st.1 := by
  simp [archiveFallback, h]

/-- A truthy primary survives the extension fallback. -/
theorem extFallback_keep (e : String) (st : Option String × List String)
    (h : pyTruthyS st.1 = true) : (extFallback e st).1 = st.1 := by
  unfold extFallback
  cases lookupMap EXT_MAP e with
  | none => rfl
  | some g => simp [h]

/-- A truthy primary survives the final fallback. -/
theorem otherFallback_keep (st : Option String × List String)
    (h : pyTruthyS st.1 = true) : (otherFallback st).1 = st.1 := by
  simp [otherFallback, h]

/-- A truthy primary survives the whole tail of the classification pipeline. -/
theorem pipelineTail_keep (e t p : String) (ai : List String) (b : Bool)
    (st : Option String × List String) (h : pyTruthyS st.1 = true) :
    (otherFallback (extFallback e (archiveFallback b
      (ai.foldl aiStep (textStage t (platformStage p st)))))).1 = st.1 := by
  have e2 := platformStage_keep p st h
  have t2 : pyTruthyS (platformStage p st).1 = true := by rw [e2]; exact h
  have e3 := textStage_keep t _ t2
  have t3 : pyTruthyS (textStage t (platformStage p st)).1 = true := by
    rw [e3]; exact t2
  have e4 := aiFold_keep ai _ t3
  have t4 : pyTruthyS (ai.foldl aiStep (textStage t (platformStage p st))).1 = true := by
    rw [e4]; exact t3
  have e5 := archiveFallback_keep b _ t4
  have t5 : pyTruthyS (archiveFallback b
      (ai.foldl aiStep (textStage t (platformStage p st)))).1 = true := by
    rw [e5]; exact t4
  have e6 := extFallback_keep e _ t5
  have t6 : pyTruthyS (extFallback e (archiveFallback b
      (ai.foldl aiStep (textStage t (platformStage p st))))).1 = true := by
    rw [e6]; exact t5
  have e7 := otherFallback_keep _ t6
  rw [e7, e6, e5, e4, e3, e2]

/-- C7: a `.pdf` filename yields primary category "ebook" no matter the
platform hint, the bundle/product text, or the AI suggestions; an unmapped
`.zip` filename with no platform mapping, no keyword hit and no AI input
yields "archive"; and with the archive fallback also unavailable (extension
not an archive type and not mapped) the primary falls through to "other". -/
theorem C7_classifier_priority (fn platform bundle product : String) (ai : List String) :
    (extOf fn = "pdf" →
      (categorizeWithTags fn platform bundle product ai).1 = "ebook")
    ∧ (extOf fn = "zip" →
        lookupMap PLATFORM_MAP (strLower platform) = none →
        textRules (strLower (bundle ++ " " ++ product ++ " " ++ fn)) = none →
        ai = [] →
        (categorizeWithTags fn platform bundle product ai).1 = "archive")
    ∧ (lookupMap EXT_MAP (extOf fn) = none →
        ARCHIVE_EXT.contains (extOf fn) = false →
        lookupMap PLATFORM_MAP (strLower platform) = none →
        textRules (strLower (bundle ++ " " ++ product ++ " " ++ fn)) = none →
        ai = [] →
        (categorizeWithTags fn platform bundle product ai).1 = "other") := by
  refine ⟨?_, ?_, ?_⟩
  · intro hext
    have h1 : extStage "pdf" = (some "ebook", ["ebook"]) := by decide
    simp only [categorizeWithTags, hext, h1]
    rw [pipelineTail_keep "pdf" (strLower (bundle ++ " " ++ product ++ " " ++ fn))
      (strLower platform) ai (ARCHIVE_EXT.contains "pdf") (some "ebook", ["ebook"])
      (by decide)]
    rfl
  · intro hext hplat htext hai
    subst hai
    have h1 : extStage "zip" = (none, []) := by decide
    have h2 : platformStage (strLower platform) ((none : Option String), ([] : List String))
        = (none, []) := by
      unfold platformStage; rw [hplat]
    have h3 : textStage (strLower (bundle ++ " " ++ product ++ " " ++ fn))
        ((none : Option String), ([] : List String)) = (none, []) := by
      unfold textStage; rw [htext]
    simp only [categorizeWithTags, hext, h1, h2, h3]
    decide
  · intro hmap harch hplat htext hai
    subst hai
    have h1 : extStage (extOf fn) = (none, []) := by
      unfold extStage; rw [hmap]
    have h2 : platformStage (strLower platform) ((none : Option String), ([] : List String))
        = (none, []) := by
      unfold platformStage; rw [hplat]
    have h3 : textStage (strLower (bundle ++ " " ++ product ++ " " ++ fn))
        ((none : Option String), ([] : List String)) = (none, []) := by
      unfold textStage; rw [htext]
    have h4 : archiveFallback false ((none : Option String), ([] : List String))
        = (none, []) := by decide
    have h5 : extFallback (extOf fn) ((none : Option String), ([] : List String))
        = (none, []) := by
      unfold extFallback; rw [hmap]
    simp only [categorizeWithTags, h1, h2, h3, List.foldl_nil, harch, h4, h5]
    decide

/-- C7 witness: concrete instances for each branch of the priority theorem. -/
theorem C7_classifier_priority_witness :
    (categorizeWithTags "guide.pdf" "windows" "Bundle" "Prod" ["music"]).1 = "ebook"
    ∧ (categorizeWithTags "stuff.zip" "" "" "" []).1 = "archive"
    ∧ (categorizeWithTags "noext" "weird" "qqq" "www" []).1 = "other" :=
  ⟨(C7_classifier_priority "guide.pdf" "windows" "Bundle" "Prod" ["music"]).1 (by decide),
   (C7_classifier_priority "stuff.zip" "" "" "" []).2.1 (by decide) (by decide) (by decide) rfl,
   (C7_classifier_priority "noext" "weird" "qqq" "www" []).2.2 (by decide) (by decide)
     (by decide) (by decide) rfl⟩

/-- C1: evaluation of `collect` at concrete inputs exhibiting the dedented
`if not products:` block.  With two purchase keys whose orders both have
subproducts, `collect` returns no assets at all, although
`_collect_bundle_assets` yields assets for each order; and when the last
order lacks subproducts, only that key's synthesized assets are emitted
(the first key is dropped).  The claim — every purchase key processed
exactly once — fails on the code. -/
theorem C1_collect_drops_purchase_keys :
    collectNonTrove sampleEnv fetchBothOrders ["k1", "k2"] false = some []
    ∧ collectBundleAssets sampleEnv false "k1" "Bundle One" sampleProductOne ≠ []
    ∧ collectBundleAssets sampleEnv false "k2" "Bundle Two" sampleProductTwo ≠ []
    ∧ (collectNonTrove sampleEnv fetchThirdOrder ["k1", "k3"] false).map
        (List.map (fun p => p.order_id)) = some [some "k3"] := by
  decide

/-- C2 counterexample: with a cache entry present, update not forced, and the
destination file present with zero size, the non-trove pipeline skips (the
claim says every combination except (present, present-nonzero) fetches); and
on the trove path a present cache entry alone skips with no file check at
all. -/
theorem C2_cache_skip_counterexample :
    nonTroveOutcome true false (some 0) = FetchDecision.skip
    ∧ troveShouldDownload (some {}) false "2020-01-01" "m1" = false := by
  decide

/-- C2 (amended): a non-trove target is skipped iff a cache entry is present,
update is not forced, and the destination file exists (whatever its size —
a nonzero file is skipped at scheduling time, a zero-size file by the
existence-only re-check); it is fetched in every other combination, so a
cache entry alone (file absent) never suffices there.  On the trove path,
with update not forced, a present cache entry alone decides the skip. -/
theorem C2_skip_cache_matrix (cache update : Bool) (file : Option Nat)
    (ci : Option TroveCacheEntry) (u m : String) :
    (nonTroveOutcome cache update file = FetchDecision.skip ↔
      cache = true ∧ update = false ∧ file.isSome = true)
    ∧ (nonTroveOutcome cache update file = FetchDecision.fetch ↔
      cache = false ∨ update = true ∨ file = none)
    ∧ (update = false → troveShouldDownload ci update u m = ci.isNone) := by
  refine ⟨?_, ?_, ?_⟩
  · cases cache <;> cases update <;> rcases file with _ | n <;>
      simp [nonTroveOutcome, processProductGate, checkCacheGate] <;>
      by_cases h : n > 0 <;> simp [h]
  · cases cache <;> cases update <;> rcases file with _ | n <;>
      simp [nonTroveOutcome, processProductGate, checkCacheGate] <;>
      by_cases h : n > 0 <;> simp [h]
  · intro hu
    subst hu
    rcases ci with _ | ci <;> simp [troveShouldDownload]

/-- C2 witness: the matrix theorem applied at a concrete input. -/
theorem C2_skip_cache_matrix_witness :
    troveShouldDownload none false "2020-01-01" "m1" =
      (none : Option TroveCacheEntry).isNone :=
  (C2_skip_cache_matrix true false (some 0) none "2020-01-01" "m1").2.2 rfl

/-- C3: evaluation of `upsert_assets` at a payload carrying every enriched
field.  The INSERT omits the columns `activation_key`, `download_urls`,
`order_name`, `download_error`, so on first insert they stay NULL — and
since `excluded.col` is NULL for omitted columns, re-upserting the same
payload still leaves them NULL: the upsert never writes them, contradicting
the claim that supplied non-null values are stored and overwrite.  The
fields that are in the column list (category, image_url, description,
download_path) are stored. -/
theorem C3_upsert_never_writes_unlisted_columns :
    ((upsertAssets 100 {} [payloadEnriched]).assets.map
      (fun r => (r.activation_key, r.download_urls, r.order_name, r.download_error)) =
      ([(none, none, none, none)] :
        List (Option String × Option String × Option String × Option String)))
    ∧ ((upsertAssets 100 {} [payloadEnriched]).assets.map
      (fun r => (r.category, r.image_url, r.description, r.download_path)) =
      [(some "ebook", some "img", some "desc", some "/lib/f")])
    ∧ ((upsertAssets 100 {} [payloadEnriched, payloadEnriched]).assets.map
      (fun r => (r.activation_key, r.download_urls, r.order_name, r.download_error)) =
      ([(none, none, none, none)] :
        List (Option String × Option String × Option String × Option String))) :=
  ⟨by decide, by decide, by decide⟩

/-- C6: under a declared content length, a streamed byte total short of the
declared length fails the item and leaves the destination file absent
(partial file removed), while a total at or above the declared length
succeeds with the file holding the streamed bytes (an excess only logs a
warning). -/
theorem C6_content_length_check (total_length : Nat) (chunks : List Nat) :
    (chunks.foldl (fun acc c => acc + c) 0 < total_length →
      processDownload false (some total_length) chunks = (false, none))
    ∧ (total_length ≤ chunks.foldl (fun acc c => acc + c) 0 →
      processDownload false (some total_length) chunks =
        (true, some (chunks.foldl (fun acc c => acc + c) 0))) := by
  constructor
  · intro h
    simp [processDownload, downloadFileResult, h]
  · intro h
    simp [processDownload, downloadFileResult, Nat.not_lt.mpr h]

/-- C6 witness: the 1000-byte declared download truncated at 800 bytes fails
with the file deleted; a 1200-byte excess is accepted. -/
theorem C6_content_length_check_witness :
    processDownload false (some 1000) [400, 400] = (false, none)
    ∧ processDownload false (some 1000) [600, 600] = (true, some 1200) :=
  ⟨(C6_content_length_check 1000 [400, 400]).1 (by decide),
   (C6_content_length_check 1000 [600, 600]).2 (by decide)⟩

/-- C8 counterexample: the indexer's `_should_download_platform` accepts a
platform that is not in the configured allow-list (the claim says the
catalog indexer emits only allow-list members). -/
theorem C8_indexer_ignores_allowlist :
    indexerShouldDownloadPlatform ["linux"] "windows" = true
    ∧ (["linux"].contains (strLower "windows")) = false := by
  decide

/-- `_should_download_platform` of the download manager as a Boolean
equation: pass iff the allow-list is empty or contains the lowered platform. -/
theorem dlShouldDownloadPlatform_eq (pi : List String) (plat : String) :
    dlShouldDownloadPlatform pi plat = (pi.isEmpty || pi.contains (strLower plat)) := by
  unfold dlShouldDownloadPlatform
  rcases pi with _ | ⟨x, xs⟩
  · rfl
  · by_cases h : (x :: xs).contains (strLower plat) <;> simp [h]

/-- C8 (amended): the download manager's filter passes exactly the
case-insensitive allow-list members (an empty or "all" list passes
everything, and a `None` configuration passes everything); the catalog
indexer's filter passes every platform regardless of its configured
allow-list. -/
theorem C8_platform_filter (inc : List String) (plat : String)
    (ps : List String) (p : String) :
    (dlShouldDownloadPlatform (dlPlatformIncludeInit (some inc)) plat = true ↔
      (inc.contains "all" = true ∨ inc = [] ∨
        (inc.map strLower).contains (strLower plat) = true))
    ∧ dlShouldDownloadPlatform (dlPlatformIncludeInit none) plat = true
    ∧ indexerShouldDownloadPlatform ps p = true := by
  refine ⟨?_, by simp [dlShouldDownloadPlatform, dlPlatformIncludeInit], rfl⟩
  by_cases hall : "all" ∈ inc
  · have hinit : dlPlatformIncludeInit (some inc) = [] := by
      simp [dlPlatformIncludeInit, hall]
    rw [hinit, dlShouldDownloadPlatform_eq]
    constructor
    · intro _
      exact Or.inl (by simpa using hall)
    · intro _; rfl
  · have hinit : dlPlatformIncludeInit (some inc) = inc.map strLower := by
      simp [dlPlatformIncludeInit, hall]
    rw [hinit, dlShouldDownloadPlatform_eq]
    simp [List.isEmpty_iff, List.map_eq_nil_iff, hall]

/-- C8 witness: the amended filter theorem applied at a concrete allow-list
and platform (case-insensitive hit). -/
theorem C8_platform_filter_witness :
    dlShouldDownloadPlatform (dlPlatformIncludeInit (some ["Linux"])) "LINUX" = true :=
  (C8_platform_filter ["Linux"] "LINUX" [] "x").1.mpr (Or.inr (Or.inr (by decide)))

/-! ### Upsert infrastructure -/

theorem countP_map_congr {α : Type} (l : List α) (f : α → α) (p : α → Bool)
    (h : ∀ x ∈ l, p (f x) = p x) : (l.map f).countP p = l.countP p := by
  induction l with
  | nil => rfl
  | cons a t ih =>
    simp only [List.map_cons, List.countP_cons]
    rw [ih (fun x hx => h x (List.mem_cons_of_mem a hx)), h a (List.mem_cons_self a t)]

theorem upsertAssets_singleton (now : Nat) (db : DB) (a : Payload) :
    upsertAssets now db [a] = upsertOne now db a := rfl

theorem upsertAssets_pair (now : Nat) (db : DB) (a b : Payload) :
    upsertAssets now db [a, b] = upsertOne now (upsertOne now db a) b := rfl

theorem upsertOne_eq_conflict {now : Nat} {db : DB} {a : Payload} {r : AssetRow}
    (h : conflictRow db a = some r) : upsertOne now db a = upsertConflict db a r := by
  unfold upsertOne
  rw [h]

theorem upsertOne_eq_insert {now : Nat} {db : DB} {a : Payload}
    (h : conflictRow db a = none) : upsertOne now db a = upsertInsert now db a := by
  unfold upsertOne
  rw [h]

theorem conflictRow_some_url {db : DB} {a : Payload} {u : String} (h : a.url = some u) :
    conflictRow db a = db.assets.find? (fun r => r.url == some u) := by
  unfold conflictRow
  rw [h]

theorem conflictRow_mem {db : DB} {a : Payload} {r : AssetRow}
    (h : conflictRow db a = some r) : r ∈ db.assets ∧ r.url = a.url := by
  unfold conflictRow at h
  cases ha : a.url with
  | none => rw [ha] at h; cases h
  | some u =>
    rw [ha] at h
    refine ⟨List.mem_of_find?_eq_some h, ?_⟩
    have hp := List.find?_some h
    rwa [beq_iff_eq] at hp

theorem conflictRow_none_count {db : DB} {a : Payload} {u : String}
    (ha : a.url = some u) (h : conflictRow db a = none) : countUrl db u = 0 := by
  unfold conflictRow at h
  rw [ha] at h
  unfold countUrl
  exact List.countP_eq_zero.mpr (List.find?_eq_none.mp h)

theorem mem_id_unique {db : DB} (hnd : (db.assets.map (fun r => r.id)).Nodup)
    {x y : AssetRow} (hx : x ∈ db.assets) (hy : y ∈ db.assets) (hid : x.id = y.id) :
    x = y :=
  List.inj_on_of_nodup_map hnd hx hy hid

theorem countUrl_upsertConflict {db : DB} {a : Payload} {r : AssetRow}
    (hwf : DBWF db) (hc : conflictRow db a = some r) (u2 : String) :
    countUrl (upsertConflict db a r) u2 = countUrl db u2 := by
  obtain ⟨hmem, _⟩ := conflictRow_mem hc
  unfold upsertConflict countUrl
  apply countP_map_congr
  intro x hx
  split
  · next h =>
      have hxr : x = r := mem_id_unique hwf.1 hx hmem (by simpa using h)
      rw [hxr]
      rfl
  · rfl

theorem upsertConflict_ids {db : DB} {a : Payload} {r : AssetRow} :
    (upsertConflict db a r).assets.map (fun x => x.id) = db.assets.map (fun x => x.id) := by
  unfold upsertConflict
  rw [List.map_map]
  apply List.map_eq_map_iff.mpr
  intro x _
  simp only [Function.comp_apply]
  split
  · next h =>
      have hid : x.id = r.id := by simpa using h
      show (applyConflictUpdate a r).id = x.id
      rw [hid]
      rfl
  · rfl

theorem upsertConflict_wf {db : DB} {a : Payload} {r : AssetRow}
    (hwf : DBWF db) (hc : conflictRow db a = some r) : DBWF (upsertConflict db a r) := by
  refine ⟨?_, ?_, ?_⟩
  · rw [upsertConflict_ids]
    exact hwf.1
  · intro x hx
    unfold upsertConflict at hx
    simp only [List.mem_map] at hx
    obtain ⟨y, hy, hxy⟩ := hx
    have hid : x.id = y.id := by
      subst hxy
      split
      · next h =>
          have hyr : y.id = r.id := by simpa using h
          show (applyConflictUpdate a r).id = y.id
          rw [hyr]
          rfl
      · rfl
    rw [hid]
    exact hwf.2.1 y hy
  · intro u2
    rw [countUrl_upsertConflict hwf hc u2]
    exact hwf.2.2 u2

theorem upsertInsert_wf {now : Nat} {db : DB} {a : Payload}
    (hwf : DBWF db) (hc : conflictRow db a = none) : DBWF (upsertInsert now db a) := by
  refine ⟨?_, ?_, ?_⟩
  · unfold upsertInsert
    simp only [List.map_append, List.map_cons, List.map_nil]
    rw [List.nodup_append]
    refine ⟨hwf.1, List.nodup_singleton _, ?_⟩
    intro x hx hx1
    simp only [List.mem_singleton] at hx1
    simp only [List.mem_map] at hx
    obtain ⟨y, hy, hxy⟩ := hx
    have := hwf.2.1 y hy
    have : (newRowFromPayload now db.nextId a).id = db.nextId := rfl
    omega
  · intro x hx
    unfold upsertInsert at hx ⊢
    simp only [List.mem_append, List.mem_singleton] at hx
    rcases hx with hold | hnew
    · exact Nat.lt_trans (hwf.2.1 x hold) (Nat.lt_succ_self _)
    · subst hnew
      exact Nat.lt_succ_self _
  · intro u2
    unfold upsertInsert countUrl
    rw [List.countP_append]
    cases ha : a.url with
    | none =>
      have hrow : (newRowFromPayload now db.nextId a).url = none := by
        simp [newRowFromPayload, ha]
      simp [hrow]
      exact hwf.2.2 u2
    | some u =>
      have hrow : (newRowFromPayload now db.nextId a).url = some u := by
        simp [newRowFromPayload, ha]
      by_cases hu2 : u2 = u
      · subst hu2
        have h0 : countUrl db u2 = 0 := conflictRow_none_count ha hc
        unfold countUrl at h0
        simp [h0, hrow]
      · have : ((newRowFromPayload now db.nextId a).url == some u2) = false := by
          simp [hrow]
          exact fun h => hu2 h.symm
        simp [this]
        exact hwf.2.2 u2

theorem upsertOne_wf (now : Nat) (db : DB) (a : Payload) (hwf : DBWF db) :
    DBWF (upsertOne now db a) := by
  cases hc : conflictRow db a with
  | some r =>
    rw [upsertOne_eq_conflict hc]
    exact upsertConflict_wf hwf hc
  | none =>
    rw [upsertOne_eq_insert hc]
    exact upsertInsert_wf hwf hc

theorem countUrl_upsertOne_self (now : Nat) (db : DB) (a : Payload) (u : String)
    (hwf : DBWF db) (hu : a.url = some u) : countUrl (upsertOne now db a) u = 1 := by
  cases hc : conflictRow db a with
  | some r =>
    rw [upsertOne_eq_conflict hc, countUrl_upsertConflict hwf hc]
    obtain ⟨hmem, hurl⟩ := conflictRow_mem hc
    have h1 : 0 < countUrl db u := by
      unfold countUrl
      exact List.countP_pos_iff.mpr ⟨r, hmem, by rw [hurl, hu]; simp⟩
    exact Nat.le_antisymm (hwf.2.2 u) h1
  | none =>
    rw [upsertOne_eq_insert hc]
    unfold upsertInsert countUrl
    rw [List.countP_append]
    have h0 : countUrl db u = 0 := conflictRow_none_count hu hc
    unfold countUrl at h0
    rw [h0]
    simp [newRowFromPayload, hu]

theorem countUrl_upsert_replicate (now : Nat) (a : Payload) (u : String)
    (hu : a.url = some u) :
    ∀ (m : Nat) (db : DB), DBWF db → countUrl db u = 1 →
      countUrl (upsertAssets now db (List.replicate m a)) u = 1 := by
  intro m
  induction m with
  | zero =>
    intro db _ h1
    simpa [upsertAssets] using h1
  | succ k ih =>
    intro db hwf h1
    have e : upsertAssets now db (List.replicate (k + 1) a) =
        upsertAssets now (upsertOne now db a) (List.replicate k a) := by
      simp [upsertAssets, List.replicate_succ]
    rw [e]
    exact ih (upsertOne now db a) (upsertOne_wf now db a hwf)
      (countUrl_upsertOne_self now db a u hwf hu)

theorem dbwf_empty : DBWF ({} : DB) := by
  refine ⟨List.nodup_nil, ?_, ?_⟩
  · intro r hr
    cases hr
  · intro u
    simp [countUrl]

/-- C4: upserting the same payload (non-empty url) N times, N >= 1, leaves
exactly one row keyed by that url; and upserting a payload with
`category = null` after a first upsert of the same url with
`category = "ebook"` leaves the stored category `"ebook"` (the COALESCE
merge preserves the existing value). -/
theorem C4_upsert_idempotent (now : Nat) (db : DB) (u : String) (hwf : DBWF db) :
    (∀ (a : Payload) (n : Nat), a.url = some u → 1 ≤ n →
      countUrl (upsertAssets now db (List.replicate n a)) u = 1)
    ∧ (∀ a1 a2 : Payload, a1.url = some u → a1.category = some "ebook" →
        a2.url = some u → a2.category = none → countUrl db u = 0 →
        ((upsertAssets now (upsertAssets now db [a1]) [a2]).assets.filter
          (fun r => r.url == some u)).map (fun r => r.category) = [some "ebook"]) := by
  constructor
  · intro a n hu hn
    obtain ⟨m, rfl⟩ : ∃ m, n = m + 1 := ⟨n - 1, by omega⟩
    have e : upsertAssets now db (List.replicate (m + 1) a) =
        upsertAssets now (upsertOne now db a) (List.replicate m a) := by
      simp [upsertAssets, List.replicate_succ]
    rw [e]
    exact countUrl_upsert_replicate now a u hu m (upsertOne now db a)
      (upsertOne_wf now db a hwf) (countUrl_upsertOne_self now db a u hwf hu)
  · intro a1 a2 h1u h1c h2u h2c h0
    have hnone : db.assets.find? (fun r => r.url == some u) = none := by
      apply List.find?_eq_none.mpr
      intro x hx
      unfold countUrl at h0
      exact List.countP_eq_zero.mp h0 x hx
    have hc1 : conflictRow db a1 = none := by
      rw [conflictRow_some_url h1u]
      exact hnone
    have hrowu : (newRowFromPayload now db.nextId a1).url = some u := by
      simp [newRowFromPayload, h1u]
    have hc2 : conflictRow (upsertInsert now db a1) a2 =
        some (newRowFromPayload now db.nextId a1) := by
      rw [conflictRow_some_url h2u]
      show List.find? (fun r => r.url == some u)
        (db.assets ++ [newRowFromPayload now db.nextId a1]) =
        some (newRowFromPayload now db.nextId a1)
      rw [List.find?_append, hnone]
      simp [hrowu]
    rw [upsertAssets_singleton, upsertAssets_singleton, upsertOne_eq_insert hc1,
      upsertOne_eq_conflict hc2]
    unfold upsertConflict
    unfold upsertInsert
    simp only [List.map_append]
    have hmap : db.assets.map (fun x =>
        if x.id == (newRowFromPayload now db.nextId a1).id then
          applyConflictUpdate a2 (newRowFromPayload now db.nextId a1)
        else x) = db.assets := by
      have e2 : db.assets.map (fun x =>
          if x.id == (newRowFromPayload now db.nextId a1).id then
            applyConflictUpdate a2 (newRowFromPayload now db.nextId a1)
          else x) = db.assets.map id := by
        apply List.map_eq_map_iff.mpr
        intro x hx
        have hne : x.id ≠ db.nextId := Nat.ne_of_lt (hwf.2.1 x hx)
        have hid : (x.id == (newRowFromPayload now db.nextId a1).id) = false := by
          show (x.id == db.nextId) = false
          simpa using hne
        simp [hid]
      rw [e2, List.map_id]
    rw [hmap]
    have hone : [newRowFromPayload now db.nextId a1].map (fun x =>
        if x.id == (newRowFromPayload now db.nextId a1).id then
          applyConflictUpdate a2 (newRowFromPayload now db.nextId a1)
        else x) = [applyConflictUpdate a2 (newRowFromPayload now db.nextId a1)] := by
      simp
    rw [hone, List.filter_append]
    have hf1 : db.assets.filter (fun r => r.url == some u) = [] := by
      rw [List.filter_eq_nil_iff]
      intro x hx
      unfold countUrl at h0
      exact List.countP_eq_zero.mp h0 x hx
    have hu2 : (applyConflictUpdate a2 (newRowFromPayload now db.nextId a1)).url = some u := by
      have : (applyConflictUpdate a2 (newRowFromPayload now db.nextId a1)).url =
          (newRowFromPayload now db.nextId a1).url := rfl
      rw [this, hrowu]
    have hf2 : [applyConflictUpdate a2 (newRowFromPayload now db.nextId a1)].filter
        (fun r => r.url == some u) =
        [applyConflictUpdate a2 (newRowFromPayload now db.nextId a1)] := by
      simp [List.filter, hu2]
    rw [hf1, hf2]
    simp only [List.nil_append, List.map_cons, List.map_nil]
    have : (applyConflictUpdate a2 (newRowFromPayload now db.nextId a1)).category =
        coalesce a2.category (newRowFromPayload now db.nextId a1).category := rfl
    rw [this, h2c]
    have : (newRowFromPayload now db.nextId a1).category = a1.category := rfl
    rw [coalesce, this, h1c]

/-- C4 witness: three upserts of one payload into the empty store leave one
row for url "u"; the concrete ebook-then-null category pair keeps "ebook". -/
theorem C4_upsert_idempotent_witness :
    DBWF ({} : DB)
    ∧ payloadEnriched.url = some "u" ∧ 1 ≤ 3
    ∧ countUrl (upsertAssets 7 {} (List.replicate 3 payloadEnriched)) "u" = 1
    ∧ payloadEbookCat.url = some "u" ∧ payloadEbookCat.category = some "ebook"
    ∧ payloadNullCat.url = some "u" ∧ payloadNullCat.category = none
    ∧ countUrl ({} : DB) "u" = 0
    ∧ ((upsertAssets 7 (upsertAssets 7 {} [payloadEbookCat]) [payloadNullCat]).assets.filter
        (fun r => r.url == some "u")).map (fun r => r.category) = [some "ebook"] :=
  ⟨dbwf_empty, rfl, by decide,
   (C4_upsert_idempotent 7 {} "u" dbwf_empty).1 payloadEnriched 3 rfl (by decide),
   rfl, rfl, rfl, rfl, by decide,
   (C4_upsert_idempotent 7 {} "u" dbwf_empty).2 payloadEbookCat payloadNullCat rfl rfl rfl
     rfl (by decide)⟩

/-- C5 counterexample: two distinct key-only assets, both with `url=""`, for
different products, merge into one row (the second updates the first — its
product_title wins), where the claim promised two distinct rows.  SQLite's
UNIQUE treats the empty string as an ordinary value, so `ON CONFLICT(url)`
fires. -/
theorem C5_empty_url_counterexample :
    keyPayloadOne.url = some "" ∧ keyPayloadTwo.url = some ""
    ∧ keyPayloadOne ≠ keyPayloadTwo
    ∧ (upsertAssets 0 {} [keyPayloadOne, keyPayloadTwo]).assets.length = 1
    ∧ (upsertAssets 0 {} [keyPayloadOne, keyPayloadTwo]).assets.map
        (fun r => r.product_title) = [some "Widget Two"] := by
  refine ⟨by decide, by decide, by decide, by decide, by decide⟩

/-- C5 (amended): any non-NULL url — the empty string included — acts as the
merge identity (a second upsert with the same url leaves one row for it),
and only a NULL url escapes merging: such a payload always appends a fresh
row. -/
theorem C5_url_merge_identity (now : Nat) (db : DB) (s : String) (hwf : DBWF db) :
    (∀ a1 a2 : Payload, a1.url = some s → a2.url = some s →
      countUrl (upsertAssets now db [a1, a2]) s = 1)
    ∧ (∀ b : Payload, b.url = none →
      (upsertAssets now db [b]).assets.length = db.assets.length + 1) := by
  constructor
  · intro a1 a2 h1 h2
    rw [upsertAssets_pair]
    exact countUrl_upsertOne_self now (upsertOne now db a1) a2 s
      (upsertOne_wf now db a1 hwf) h2
  · intro b hb
    have hc : conflictRow db b = none := by
      unfold conflictRow
      rw [hb]
    rw [upsertAssets_singleton, upsertOne_eq_insert hc]
    unfold upsertInsert
    simp

/-- C5 witness: the merge-identity theorem at `s = ""` with the two key-only
payloads, and the fresh-row branch at a NULL-url payload. -/
theorem C5_url_merge_identity_witness :
    DBWF ({} : DB)
    ∧ countUrl (upsertAssets 0 {} [keyPayloadOne, keyPayloadTwo]) "" = 1
    ∧ (upsertAssets 0 {} [nullUrlPayload]).assets.length = ({} : DB).assets.length + 1 :=
  ⟨dbwf_empty,
   (C5_url_merge_identity 0 {} "" dbwf_empty).1 keyPayloadOne keyPayloadTwo (by decide)
     (by decide),
   (C5_url_merge_identity 0 {} "" dbwf_empty).2 nullUrlPayload rfl⟩

/-! ### Tag invariants -/

theorem insertTagRows_mem {base : List (Nat × String)} {id : Nat} {ts : List String}
    {p : Nat × String} (h : p ∈ insertTagRows base id ts) :
    p ∈ base ∨ ∃ t ∈ ts, p = (id, strLower (strTrim t)) := by
  induction ts generalizing base with
  | nil => exact Or.inl h
  | cons t rest ih =>
    unfold insertTagRows at h ih
    simp only [List.foldl_cons] at h
    rcases ih h with hbase | ⟨t2, ht2, hp⟩
    · by_cases hempty : t = ""
      · rw [if_pos hempty] at hbase
        exact Or.inl hbase
      · rw [if_neg hempty] at hbase
        by_cases hcont : base.contains (id, strLower (strTrim t))
        · rw [if_pos hcont] at hbase
          exact Or.inl hbase
        · rw [if_neg hcont] at hbase
          rcases List.mem_append.mp hbase with hold | hnew
          · exact Or.inl hold
          · right
            exact ⟨t, List.mem_cons_self t rest, by simpa using hnew⟩
    · right
      exact ⟨t2, List.mem_cons_of_mem t ht2, hp⟩

theorem setTags_fold_mem {base : List (Nat × String)} {id : Nat} {ts : List String}
    {p : Nat × String}
    (h : p ∈ ts.foldl (fun acc t =>
      if acc.contains (id, t) then acc else acc ++ [(id, t)]) base) :
    p ∈ base ∨ ∃ t ∈ ts, p = (id, t) := by
  induction ts generalizing base with
  | nil => exact Or.inl h
  | cons t rest ih =>
    simp only [List.foldl_cons] at h
    rcases ih h with hbase | ⟨t2, ht2, hp⟩
    · by_cases hcont : base.contains (id, t)
      · rw [if_pos hcont] at hbase
        exact Or.inl hbase
      · rw [if_neg hcont] at hbase
        rcases List.mem_append.mp hbase with hold | hnew
        · exact Or.inl hold
        · right
          exact ⟨t, List.mem_cons_self t rest, by simpa using hnew⟩
    · right
      exact ⟨t2, List.mem_cons_of_mem t ht2, hp⟩

/-- C10 counterexample: after `upsert_assets` of a categorized asset followed
by `set_tags(1, ["Music"])`, the stored tag "Music" is not lowercase
(set_tags strips but does not lowercase), and the asset's category "ebook"
is not a member of its tag set (no operation inserts the category as a tag). -/
theorem C10_tag_invariant_counterexample :
    (setTags (upsertAssets 5 {} [catPayload]) 1 ["Music"]).tags = [(1, "Music")]
    ∧ strLower "Music" ≠ "Music"
    ∧ (setTags (upsertAssets 5 {} [catPayload]) 1 ["Music"]).assets.map
        (fun r => (r.id, r.category)) = [(1, some "ebook")]
    ∧ hasTag (setTags (upsertAssets 5 {} [catPayload]) 1 ["Music"]) 1 "ebook" = false := by
  refine ⟨by decide, by decide, by decide, by decide⟩

/-- C10 (amended): `upsert_assets` lowercases (and strips) every tag it
inserts and `set_category` stores a lowercased category, but `set_tags`
stores tags only stripped — keeping their case — and no operation adds the
category to the tag set, so the claimed invariant holds only for tags
written by the upsert path. -/
theorem C10_tag_normalization (now : Nat) (db : DB) (a : Payload) (id : Nat)
    (c : String) :
    (∀ p ∈ (upsertAssets now db [a]).tags,
      p ∈ db.tags ∨ ∃ t ∈ a.tags, p.2 = strLower (strTrim t))
    ∧ (∀ r ∈ (setCategory db id c).assets, r ∈ db.assets ∨ r.category = some (strLower c))
    ∧ (∀ tags : List String, ∀ p ∈ (setTags db id tags).tags,
      p ∈ db.tags ∨ ∃ t ∈ tags, p.2 = strTrim t) := by
  refine ⟨?_, ?_, ?_⟩
  · intro p hp
    rw [upsertAssets_singleton] at hp
    have htags : (upsertOne now db a).tags = insertTagRows db.tags
        (match conflictRow db a with
         | some r => r.id
         | none => db.nextId) a.tags := by
      unfold upsertOne
      cases conflictRow db a with
      | some r => rfl
      | none => rfl
    rw [htags] at hp
    rcases insertTagRows_mem hp with hold | ⟨t, ht, hpt⟩
    · exact Or.inl hold
    · right
      exact ⟨t, ht, by rw [hpt]⟩
  · intro r hr
    unfold setCategory at hr
    simp only [List.mem_map] at hr
    obtain ⟨y, hy, hyr⟩ := hr
    subst hyr
    split
    · next => exact Or.inr rfl
    · next => exact Or.inl hy
  · intro tags p hp
    unfold setTags at hp
    rcases setTags_fold_mem hp with hold | ⟨t, ht, hpt⟩
    · exact Or.inl (List.mem_of_mem_filter hold)
    · right
      simp only [List.mem_map, List.mem_filter] at ht
      obtain ⟨t0, ⟨ht0mem, _⟩, ht0⟩ := ht
      exact ⟨t0, ht0mem, by rw [hpt, ← ht0]⟩

/-- C10 witness: the set_tags branch of the normalization theorem applied at
a concrete store — the stored pair (1, "Music") comes from the input tag
list merely stripped. -/
theorem C10_tag_normalization_witness :
    ((1, "Music") ∈ ({} : DB).tags ∨
      ∃ t ∈ ["Music"], ((1, "Music") : Nat × String).2 = strTrim t) :=
  (C10_tag_normalization 0 {} {} 1 "x").2.2 ["Music"] (1, "Music") (by decide)

/-! ### Search -/

theorem sortLEb_alpha (a b : AssetRow) :
    sortLEb "alpha" a b = decide (alphaKey a ≤ alphaKey b) := by
  simp [sortLEb]

/-- C9: with a query and a category filter, every returned item matches all
whitespace-separated query terms (AND) against the full-text fields and has
the category (or a tag) equal to the lowered filter; `sort="alpha"` returns
a page ordered by the case-folded (product_title, file_name) key; and the
returned total counts the rows of the store satisfying exactly the same
WHERE predicate as the page. -/
theorem C9_search_filters_and_sort (db : DB) (q cat : String) (limit offset : Nat)
    (hq : q ≠ "") (hcat : cat ≠ "") :
    (∀ r ∈ (searchAssets db (some q) none none none none none (some cat) none none
        "alpha" limit offset).1,
      (∀ t ∈ queryTerms q, rowHasTerm r t = true) ∧
      (r.category = some (strLower cat) ∨ hasTag db r.id (strLower cat) = true))
    ∧ List.Pairwise (fun a b => alphaKey a ≤ alphaKey b)
        (searchAssets db (some q) none none none none none (some cat) none none
          "alpha" limit offset).1
    ∧ (searchAssets db (some q) none none none none none (some cat) none none
        "alpha" limit offset).2 =
      (db.assets.filter (searchPred db (some q) none none none none none (some cat)
        none none)).length
    ∧ (∀ r : AssetRow,
        searchPred db (some q) none none none none none (some cat) none none r = true ↔
        (ftsMatchRow r (queryTerms q) = true ∧
          (r.category = some (strLower cat) ∨ hasTag db r.id (strLower cat) = true))) := by
  have hpred : ∀ r : AssetRow,
      searchPred db (some q) none none none none none (some cat) none none r = true ↔
      (ftsMatchRow r (queryTerms q) = true ∧
        (r.category = some (strLower cat) ∨ hasTag db r.id (strLower cat) = true)) := by
    intro r
    simp [searchPred, hq, hcat]
  haveI instTot : IsTotal AssetRow (fun a b => sortLEb "alpha" a b = true) := by
    constructor
    intro a b
    rcases le_total (alphaKey a) (alphaKey b) with h | h
    · exact Or.inl (by rw [sortLEb_alpha]; exact decide_eq_true h)
    · exact Or.inr (by rw [sortLEb_alpha]; exact decide_eq_true h)
  haveI instTrans : IsTrans AssetRow (fun a b => sortLEb "alpha" a b = true) := by
    constructor
    intro a b c hab hbc
    rw [sortLEb_alpha] at hab hbc ⊢
    exact decide_eq_true (le_trans (of_decide_eq_true hab) (of_decide_eq_true hbc))
  have hsorted : List.Pairwise (fun a b => sortLEb "alpha" a b = true)
      (List.insertionSort (fun a b => sortLEb "alpha" a b = true)
        (db.assets.filter (searchPred db (some q) none none none none none (some cat)
          none none))) :=
    List.sorted_insertionSort _ _
  refine ⟨?_, ?_, rfl, hpred⟩
  · intro r hr
    have hr2 : r ∈ List.insertionSort (fun a b => sortLEb "alpha" a b = true)
        (db.assets.filter (searchPred db (some q) none none none none none (some cat)
          none none)) :=
      List.mem_of_mem_drop (List.mem_of_mem_take hr)
    have hr3 : r ∈ db.assets.filter (searchPred db (some q) none none none none none
        (some cat) none none) := (List.mem_insertionSort _).mp hr2
    have hr4 := (List.mem_filter.mp hr3).2
    have := (hpred r).mp hr4
    exact ⟨fun t ht => List.all_eq_true.mp this.1 t ht, this.2⟩
  · have hpage : List.Pairwise (fun a b => sortLEb "alpha" a b = true)
        (searchAssets db (some q) none none none none none (some cat) none none
          "alpha" limit offset).1 := by
      apply List.Pairwise.sublist ?_ hsorted
      exact (List.take_sublist _ _).trans (List.drop_sublist _ _)
    exact hpage.imp (fun h => of_decide_eq_true (by rwa [sortLEb_alpha] at h))

/-- C9 witness: the search theorem at a concrete store, query "sound" and
category "music". -/
theorem C9_search_filters_and_sort_witness :
    ("sound" ≠ "") ∧ ("music" ≠ "")
    ∧ ((∀ r ∈ (searchAssets sampleSearchDB (some "sound") none none none none none
          (some "music") none none "alpha" 10 0).1,
        (∀ t ∈ queryTerms "sound", rowHasTerm r t = true) ∧
        (r.category = some (strLower "music") ∨
          hasTag sampleSearchDB r.id (strLower "music") = true))
      ∧ List.Pairwise (fun a b => alphaKey a ≤ alphaKey b)
          (searchAssets sampleSearchDB (some "sound") none none none none none
            (some "music") none none "alpha" 10 0).1
      ∧ (searchAssets sampleSearchDB (some "sound") none none none none none
          (some "music") none none "alpha" 10 0).2 =
        (sampleSearchDB.assets.filter (searchPred sampleSearchDB (some "sound") none none
          none none none (some "music") none none)).length
      ∧ (∀ r : AssetRow,
          searchPred sampleSearchDB (some "sound") none none none none none
            (some "music") none none r = true ↔
          (ftsMatchRow r (queryTerms "sound") = true ∧
            (r.category = some (strLower "music") ∨
              hasTag sampleSearchDB r.id (strLower "music") = true)))) :=
  ⟨by decide, by decide,
   C9_search_filters_and_sort sampleSearchDB "sound" "music" 10 0 (by decide) (by decide)⟩

end HCC
